import Mathlib

/-!
Shallow embedding of the healthcare supply-chain backend.

Sources:
* `src/backend/models.py` — the shared enumerations and request models.
* `src/backend/main.py` — the active in-memory mock path (namespace `Mock`).
  The module-level dicts keyed by medicine id are modelled as total
  functions `Nat → List _` defaulting to `[]`; the Python code only ever
  checks membership to initialise a missing key with `[]`, so the two
  views are extensionally identical.  Each route handler wraps its whole
  body in `try/except Exception`, and FastAPI `HTTPException` is itself an
  `Exception`, so an `HTTPException` raised inside the body is caught and
  re-raised with the outer status code and a detail built from
  `str(e) = f"{status}: {detail}"`; `wrapCaught` models that re-raise.
  Handlers that mutate module state take the state and the current clock
  reading as arguments and return the (result, post-state) pair; in the
  source a raise happens only before any mutation, so an error leaves the
  state unchanged.
* `src/backend/blockchain_service.py` — the ledger-backed path (namespace
  `BC`).  The external web3 node and the two bound contracts are modelled
  as an abstract `Chain` of call behaviours; transaction signing is
  abstracted away (the signed payload carries the same data as the built
  transaction), and a raised Python exception is an `Except.error` whose
  message is the exception text.
-/

/-- `MedicineStatus` from `models.py`: a string-valued enumeration. -/
inductive MedicineStatus where
  | MANUFACTURED
  | SHIPPED_TO_DISTRIBUTOR
  | RECEIVED_BY_DISTRIBUTOR
  | SHIPPED_TO_PHARMACY
  | RECEIVED_BY_PHARMACY
  | SOLD_TO_PATIENT
  | EXPIRED
  | RECALLED
deriving DecidableEq, Repr

/-- The `.value` string of a `MedicineStatus` member (names equal values). -/
def MedicineStatus.value : MedicineStatus → String
  | .MANUFACTURED => "MANUFACTURED"
  | .SHIPPED_TO_DISTRIBUTOR => "SHIPPED_TO_DISTRIBUTOR"
  | .RECEIVED_BY_DISTRIBUTOR => "RECEIVED_BY_DISTRIBUTOR"
  | .SHIPPED_TO_PHARMACY => "SHIPPED_TO_PHARMACY"
  | .RECEIVED_BY_PHARMACY => "RECEIVED_BY_PHARMACY"
  | .SOLD_TO_PATIENT => "SOLD_TO_PATIENT"
  | .EXPIRED => "EXPIRED"
  | .RECALLED => "RECALLED"

/-- Attribute lookup `getattr(MedicineStatus, s)`: member by name, `none`
when the name is unknown (an `AttributeError` in the source). -/
def MedicineStatus.byName : String → Option MedicineStatus
  | "MANUFACTURED" => some .MANUFACTURED
  | "SHIPPED_TO_DISTRIBUTOR" => some .SHIPPED_TO_DISTRIBUTOR
  | "RECEIVED_BY_DISTRIBUTOR" => some .RECEIVED_BY_DISTRIBUTOR
  | "SHIPPED_TO_PHARMACY" => some .SHIPPED_TO_PHARMACY
  | "RECEIVED_BY_PHARMACY" => some .RECEIVED_BY_PHARMACY
  | "SOLD_TO_PATIENT" => some .SOLD_TO_PATIENT
  | "EXPIRED" => some .EXPIRED
  | "RECALLED" => some .RECALLED
  | _ => none

/-- Decode of a raw ledger status field into the enumeration; a failed
decode raises a `ValueError` in the source, which the caller catches. -/
def MedicineStatus.ofCode : Nat → Option MedicineStatus
  | 0 => some .MANUFACTURED
  | 1 => some .SHIPPED_TO_DISTRIBUTOR
  | 2 => some .RECEIVED_BY_DISTRIBUTOR
  | 3 => some .SHIPPED_TO_PHARMACY
  | 4 => some .RECEIVED_BY_PHARMACY
  | 5 => some .SOLD_TO_PATIENT
  | 6 => some .EXPIRED
  | 7 => some .RECALLED
  | _ => none

/-- `Role` from `models.py`. -/
inductive Role where
  | NONE
  | MANUFACTURER
  | DISTRIBUTOR
  | PHARMACY
  | PATIENT
  | ADMIN
deriving DecidableEq, Repr

/-- The `.value` string of a `Role` member. -/
def Role.value : Role → String
  | .NONE => "NONE"
  | .MANUFACTURER => "MANUFACTURER"
  | .DISTRIBUTOR => "DISTRIBUTOR"
  | .PHARMACY => "PHARMACY"
  | .PATIENT => "PATIENT"
  | .ADMIN => "ADMIN"

/-- Decode of a raw ledger role value, as `MedicineStatus.ofCode`. -/
def Role.ofCode : Nat → Option Role
  | 0 => some .NONE
  | 1 => some .MANUFACTURER
  | 2 => some .DISTRIBUTOR
  | 3 => some .PHARMACY
  | 4 => some .PATIENT
  | 5 => some .ADMIN
  | _ => none

/-- Hex digits of a natural number, as Python `f"{n:x}"`. -/
def hexDigits (n : Nat) : String := String.mk (Nat.toDigits 16 n)

/-- Left-pad a string with zeros to width `w`, as Python zero padding. -/
def padLeftZeros (w : Nat) (s : String) : String :=
  String.mk (List.replicate (w - s.length) '0') ++ s

/-- Python `f"{n:040x}"`. -/
def hex40 (n : Nat) : String := padLeftZeros 40 (hexDigits n)

/-- Python `f"{n:05d}"`. -/
def dec5 (n : Nat) : String := padLeftZeros 5 (toString n)

/-- Python `opt or fb` on an optional string: the fallback is used when the
value is absent or empty (the empty string is falsy). -/
def pyOr (o : Option String) (fb : String) : String :=
  match o with
  | some s => if s = "" then fb else s
  | none => fb

/-- Python truthiness filter used by `if transfer.recipientName:`. -/
def pyTruthy (o : Option String) : Option String :=
  match o with
  | some s => if s = "" then none else some s
  | none => none

/-- Python `d.get(k, fb)` on a string-keyed dict of strings. -/
def dictGet (d : List (String × String)) (k fb : String) : String :=
  (d.lookup k).getD fb

namespace Mock

/-- The five named addresses appearing in the hardcoded mock data. -/
def addrManufacturer : String := "0xf39Fd6e51aad88F6F4ce6aB8827279cffFb92266"

def addrDistributor : String := "0x70997970C51812dc3A010C7d01b50e0d17dc79C8"

def addrPharmacy : String := "0x3C44CdDdB6a900fa2b585dd299e03d12FA4293BC"

def addrPatient1 : String := "0x90F79bf6EB2c4f870365E785982E1f101E93b906"

def addrPatient2 : String := "0x15d34AAf54267DB7D7c367839AAf71A00a2C6A65"

/-- `OWNER_NAMES` from `main.py`. -/
def OWNER_NAMES : List (String × String) :=
  [(addrManufacturer, "MediPharm Manufacturing Co."),
   (addrDistributor, "Global Distributors Ltd."),
   (addrPharmacy, "CITY Engg Pharmacy"),
   (addrPatient1, "John Smith (Patient)"),
   (addrPatient2, "Sarah Johnson (Patient)")]

/-- `PHARMACY_NAMES` from `main.py`. -/
def PHARMACY_NAMES : List (String × String) :=
  [(addrPharmacy, "CITY Engg Pharmacy"),
   (addrDistributor, "Global Distributors Ltd.")]

/-- `DISTRIBUTOR_NAMES` from `main.py`. -/
def DISTRIBUTOR_NAMES : List (String × String) :=
  [(addrDistributor, "Global Distributors Ltd.")]

/-- `PATIENT_NAMES` from `main.py`. -/
def PATIENT_NAMES : List (String × String) :=
  [(addrPatient1, "John Smith"),
   (addrPatient2, "Sarah Johnson")]

/-- `format_status_with_recipient` from `main.py`. -/
def format_status_with_recipient (status : MedicineStatus) (owner : String)
    (recipientName : Option String) : String :=
  match status with
  | .SHIPPED_TO_PHARMACY =>
    "Shipped to " ++ pyOr recipientName (dictGet PHARMACY_NAMES owner "Pharmacy")
  | .RECEIVED_BY_PHARMACY =>
    "Received by " ++ pyOr recipientName (dictGet PHARMACY_NAMES owner "Pharmacy")
  | .SHIPPED_TO_DISTRIBUTOR =>
    "Shipped to " ++ pyOr recipientName (dictGet DISTRIBUTOR_NAMES owner "Distributor")
  | .RECEIVED_BY_DISTRIBUTOR =>
    "Received by " ++ pyOr recipientName (dictGet DISTRIBUTOR_NAMES owner "Distributor")
  | .SOLD_TO_PATIENT =>
    "Sold to " ++ pyOr recipientName (dictGet PATIENT_NAMES owner "Patient")
  | .MANUFACTURED => "Manufactured"
  | .EXPIRED => "Expired"
  | .RECALLED => "Recalled"

/-- One entry of `BLOCKCHAIN_MEDICINES`; the two optional display fields are
the keys added to the dict by the handlers (absent in the seed data). -/
structure Medicine where
  id : Nat
  name : String
  batchNumber : String
  manufactureDate : Nat
  expiryDate : Nat
  manufacturer : String
  currentOwner : String
  status : MedicineStatus
  temperatureThreshold : Int
  temperatureSensitive : Bool
  isActive : Bool
  blockchainTxHash : String
  blockNumber : Nat
  gasUsed : Nat
  currentOwnerName : Option String
  statusFormatted : Option String
deriving DecidableEq, Repr

/-- One entry of `BLOCKCHAIN_TEMPERATURE_DATA`. -/
structure TempEntry where
  temperature : String
  timestamp : Nat
  txHash : String
deriving DecidableEq, Repr

/-- One entry of `BLOCKCHAIN_LOCATION_DATA`. -/
structure LocEntry where
  location : String
  timestamp : Nat
  txHash : String
deriving DecidableEq, Repr

/-- One entry of `BLOCKCHAIN_STAGES_DATA` (optional keys as options). -/
structure StageEntry where
  stage : MedicineStatus
  location : String
  owner : String
  timestamp : Nat
  txHash : String
  recipientName : Option String
  pharmacyName : Option String
  distributorName : Option String
  patientName : Option String
deriving DecidableEq, Repr

/-- The module-level mutable state of `main.py`: the medicine list and the
three dicts keyed by medicine id (total functions defaulting to `[]`). -/
structure MockState where
  medicines : List Medicine
  temperatureData : Nat → List TempEntry
  locationData : Nat → List LocEntry
  stagesData : Nat → List StageEntry

/-- An HTTP error response (`HTTPException(status_code, detail)`). -/
structure HTTPError where
  status : Nat
  detail : String
deriving DecidableEq, Repr

/-- The `except Exception` re-raise of an `HTTPException` from the body:
the new detail embeds `str(e) = f"{status}: {detail}"`. -/
def wrapCaught (code : Nat) (msg : String) (e : HTTPError) : HTTPError :=
  { status := code, detail := msg ++ toString e.status ++ ": " ++ e.detail }

/-- `next((m for m in BLOCKCHAIN_MEDICINES if m["id"] == id), None)`. -/
def findById (medicine_id : Nat) (ms : List Medicine) : Option Medicine :=
  ms.find? (fun m => m.id == medicine_id)

/-- `next((m for m in BLOCKCHAIN_MEDICINES if m["id"] == id and m["isActive"]), None)`. -/
def findByIdActive (medicine_id : Nat) (ms : List Medicine) : Option Medicine :=
  ms.find? (fun m => m.id == medicine_id && m.isActive)

/-- In-place mutation of the dict object returned by `next(...)`: replace
the first element satisfying the predicate. -/
def updateFirst (p : Medicine → Bool) (f : Medicine → Medicine) :
    List Medicine → List Medicine
  | [] => []
  | m :: ms => if p m then f m :: ms else m :: updateFirst p f ms

/-- The copy-plus-display-names step shared by the read handlers. -/
def withDisplayNames (m : Medicine) : Medicine :=
  { m with
    currentOwnerName := some (dictGet OWNER_NAMES m.currentOwner "Unknown"),
    statusFormatted := some (format_status_with_recipient m.status m.currentOwner none) }

/-- `GET /medicines` (`get_medicines`). -/
def get_medicines (st : MockState) : Except HTTPError (List Medicine) :=
  (Except.ok (st.medicines.filterMap
      (fun m => if m.isActive then some (withDisplayNames m) else none))
    : Except HTTPError (List Medicine)).mapError
    (wrapCaught 500 "Blockchain query failed: ")

/-- `GET /medicines/{id}` (`get_medicine`): the body raises a 404 for an
absent or inactive id, and the blanket `except` re-raises it as a 500. -/
def get_medicine (st : MockState) (medicine_id : Nat) : Except HTTPError Medicine :=
  ((match findByIdActive medicine_id st.medicines with
    | none => Except.error { status := 404, detail := "Medicine not found on blockchain" }
    | some m => Except.ok (withDisplayNames m)) : Except HTTPError Medicine).mapError
    (wrapCaught 500 "Blockchain query failed: ")

/-- Response model of `GET /medicines/batch/{batch_number}`. -/
structure BatchResponse where
  batchNumber : String
  medicines : List Medicine
deriving DecidableEq, Repr

/-- `GET /medicines/batch/{batch_number}` (`get_medicines_by_batch`). -/
def get_medicines_by_batch (st : MockState) (batch_number : String) :
    Except HTTPError BatchResponse :=
  (Except.ok
      { batchNumber := batch_number,
        medicines :=
          (st.medicines.filter (fun m => m.batchNumber == batch_number && m.isActive)).map
            withDisplayNames }
    : Except HTTPError BatchResponse).mapError
    (wrapCaught 500 "Blockchain query failed: ")

/-- `MedicineCreate` from `models.py`. -/
structure MedicineCreate where
  name : String
  batchNumber : String
  expiryDate : Nat
  temperatureThreshold : Int
  temperatureSensitive : Bool
deriving DecidableEq, Repr

/-- The smallest epoch second `datetime.fromtimestamp` rejects (the
first second of year 10000 with the clock in UTC): Python datetimes stop
at year 9999, so `fromtimestamp` raises a `ValueError` from this value
on. -/
def fromtimestampLimit : Nat := 253402300800

/-- `POST /medicines` (`create_medicine`); `now` is `datetime.now()` as an
epoch second.  After computing the new id, the source evaluates
`datetime.fromtimestamp(medicine.expiryDate)` and discards the value: for
an expiry date at or beyond `fromtimestampLimit` that call raises a
`ValueError`, which the blanket `except` catches into an HTTP 400 with
the exception text before anything is appended, so the state is
unchanged.  Below the limit the body has no failure path. -/
def create_medicine (st : MockState) (now : Nat) (medicine : MedicineCreate) :
    Except HTTPError Medicine × MockState :=
  let new_id :=
    if st.medicines.isEmpty then 1
    else (st.medicines.map (fun m => m.id)).foldl Nat.max 0 + 1
  if fromtimestampLimit ≤ medicine.expiryDate then
    (Except.error
      { status := 400,
        detail := "Blockchain transaction failed: year 10000 is out of range" },
     st)
  else
  let new_medicine : Medicine :=
    { id := new_id,
      name := medicine.name,
      batchNumber := medicine.batchNumber,
      manufactureDate := now,
      expiryDate := medicine.expiryDate,
      manufacturer := addrManufacturer,
      currentOwner := addrManufacturer,
      status := .MANUFACTURED,
      temperatureThreshold := medicine.temperatureThreshold,
      temperatureSensitive := medicine.temperatureSensitive,
      isActive := true,
      blockchainTxHash := "0x" ++ hex40 new_id,
      blockNumber := 1000 + new_id,
      gasUsed := 150000,
      currentOwnerName := some (dictGet OWNER_NAMES addrManufacturer "Unknown"),
      statusFormatted := some (format_status_with_recipient .MANUFACTURED addrManufacturer none) }
  let st1 : MockState :=
    { st with
      medicines := st.medicines ++ [new_medicine],
      stagesData := fun i =>
        if i == new_id then
          [({ stage := .MANUFACTURED, location := "Manufacturing Plant A",
              owner := addrManufacturer, timestamp := now,
              txHash := "0x" ++ hex40 new_id,
              recipientName := none, pharmacyName := none,
              distributorName := none, patientName := none } : StageEntry)]
        else st.stagesData i,
      locationData := fun i =>
        if i == new_id then
          [({ location := "Manufacturing Plant A", timestamp := now,
              txHash := "0xloc" ++ dec5 new_id } : LocEntry)]
        else st.locationData i }
  (Except.ok new_medicine, st1)

/-- `MedicineTransfer` from `models.py`. -/
structure MedicineTransfer where
  toAddress : String
  newStatus : MedicineStatus
  location : String
  recipientName : Option String
deriving DecidableEq, Repr

/-- The JSON body returned by a successful transfer. -/
structure TransferResult where
  success : Bool
  transaction_hash : String
  block_number : Nat
  gas_used : Nat
  message : String
deriving DecidableEq, Repr

/-- The field updates `transfer_medicine` applies to the found dict. -/
def transferUpdate (tr : MedicineTransfer) (medicine_id : Nat) (m : Medicine) : Medicine :=
  { m with
    currentOwner := tr.toAddress,
    status := tr.newStatus,
    currentOwnerName := some (dictGet OWNER_NAMES tr.toAddress "Unknown"),
    statusFormatted :=
      some (format_status_with_recipient tr.newStatus tr.toAddress tr.recipientName),
    blockchainTxHash := "0xtransfer" ++ hex40 medicine_id,
    blockNumber := 2000 + medicine_id,
    gasUsed := 120000 }

/-- The stage record appended by `transfer_medicine`. -/
def transferStage (tr : MedicineTransfer) (medicine_id now : Nat) : StageEntry :=
  { stage := tr.newStatus,
    location := tr.location,
    owner := tr.toAddress,
    timestamp := now,
    txHash := "0xtransfer" ++ hex40 medicine_id,
    recipientName := pyTruthy tr.recipientName,
    pharmacyName :=
      if tr.newStatus = .SHIPPED_TO_PHARMACY ∨ tr.newStatus = .RECEIVED_BY_PHARMACY then
        some (pyOr tr.recipientName (dictGet PHARMACY_NAMES tr.toAddress "Pharmacy"))
      else none,
    distributorName :=
      if tr.newStatus = .SHIPPED_TO_DISTRIBUTOR ∨ tr.newStatus = .RECEIVED_BY_DISTRIBUTOR then
        some (pyOr tr.recipientName (dictGet DISTRIBUTOR_NAMES tr.toAddress "Distributor"))
      else none,
    patientName :=
      if tr.newStatus = .SOLD_TO_PATIENT then
        some (pyOr tr.recipientName (dictGet PATIENT_NAMES tr.toAddress "Patient"))
      else none }

/-- Body of `POST /medicines/{id}/transfer` before the `except` wrap. -/
def transfer_medicine_body (st : MockState) (now medicine_id : Nat)
    (tr : MedicineTransfer) : Except HTTPError TransferResult × MockState :=
  match findById medicine_id st.medicines with
  | none =>
    (Except.error { status := 404, detail := "Medicine not found on blockchain" }, st)
  | some _ =>
    let st1 : MockState :=
      { st with
        medicines :=
          updateFirst (fun m => m.id == medicine_id) (transferUpdate tr medicine_id)
            st.medicines,
        stagesData := fun i =>
          if i == medicine_id then
            st.stagesData medicine_id ++ [transferStage tr medicine_id now]
          else st.stagesData i,
        locationData := fun i =>
          if i == medicine_id then
            st.locationData medicine_id ++
              [({ location := tr.location, timestamp := now,
                  txHash := "0xloc" ++ dec5 medicine_id ++ "_" ++
                    toString (st.locationData medicine_id).length } : LocEntry)]
          else st.locationData i }
    (Except.ok
      { success := true,
        transaction_hash := "0xtransfer" ++ hex40 medicine_id,
        block_number := 2000 + medicine_id,
        gas_used := 120000,
        message := "Medicine " ++ toString medicine_id ++ " transferred on blockchain" },
     st1)

/-- `POST /medicines/{id}/transfer` (`transfer_medicine`). -/
def transfer_medicine (st : MockState) (now medicine_id : Nat)
    (tr : MedicineTransfer) : Except HTTPError TransferResult × MockState :=
  let r := transfer_medicine_body st now medicine_id tr
  (r.1.mapError (wrapCaught 400 "Blockchain transaction failed: "), r.2)

/-- `TemperatureUpdate` from `models.py`. -/
structure TemperatureUpdate where
  temperature : String
deriving DecidableEq, Repr

/-- `LocationUpdate` from `models.py`. -/
structure LocationUpdate where
  location : String
deriving DecidableEq, Repr

/-- The JSON body returned by the event-appending write handlers. -/
structure SimpleResult where
  success : Bool
  transaction_hash : String
  message : String
deriving DecidableEq, Repr

/-- Body of `POST /medicines/{id}/temperature` before the `except` wrap. -/
def update_temperature_body (st : MockState) (now medicine_id : Nat)
    (temp_update : TemperatureUpdate) : Except HTTPError SimpleResult × MockState :=
  match findById medicine_id st.medicines with
  | none =>
    (Except.error { status := 404, detail := "Medicine not found on blockchain" }, st)
  | some medicine =>
    if !medicine.temperatureSensitive then
      (Except.error { status := 400, detail := "Medicine is not temperature sensitive" }, st)
    else
      let new_reading : TempEntry :=
        { temperature := temp_update.temperature, timestamp := now,
          txHash := "0xtemp" ++ hex40 medicine_id }
      (Except.ok
        { success := true,
          transaction_hash := new_reading.txHash,
          message := "Temperature updated on blockchain for medicine " ++ toString medicine_id },
       { st with
         temperatureData := fun i =>
           if i == medicine_id then st.temperatureData medicine_id ++ [new_reading]
           else st.temperatureData i })

/-- `POST /medicines/{id}/temperature` (`update_temperature`). -/
def update_temperature (st : MockState) (now medicine_id : Nat)
    (temp_update : TemperatureUpdate) : Except HTTPError SimpleResult × MockState :=
  let r := update_temperature_body st now medicine_id temp_update
  (r.1.mapError (wrapCaught 400 "Blockchain transaction failed: "), r.2)

/-- Body of `POST /medicines/{id}/location` before the `except` wrap. -/
def update_location_body (st : MockState) (now medicine_id : Nat)
    (location_update : LocationUpdate) : Except HTTPError SimpleResult × MockState :=
  match findById medicine_id st.medicines with
  | none =>
    (Except.error { status := 404, detail := "Medicine not found on blockchain" }, st)
  | some _ =>
    let new_location : LocEntry :=
      { location := location_update.location, timestamp := now,
        txHash := "0xloc" ++ hex40 medicine_id }
    (Except.ok
      { success := true,
        transaction_hash := new_location.txHash,
        message := "Location updated on blockchain for medicine " ++ toString medicine_id },
     { st with
       locationData := fun i =>
         if i == medicine_id then st.locationData medicine_id ++ [new_location]
         else st.locationData i })

/-- `POST /medicines/{id}/location` (`update_location`). -/
def update_location (st : MockState) (now medicine_id : Nat)
    (location_update : LocationUpdate) : Except HTTPError SimpleResult × MockState :=
  let r := update_location_body st now medicine_id location_update
  (r.1.mapError (wrapCaught 400 "Blockchain transaction failed: "), r.2)

/-- Response model of `GET /medicines/{id}/temperature-history`. -/
structure TemperatureHistoryResponse where
  temperatures : List String
  timestamps : List Nat
  transactionHashes : List String
deriving DecidableEq, Repr

/-- `GET /medicines/{id}/temperature-history` (`get_temperature_history`);
an unkeyed id yields the empty response through the membership guard. -/
def get_temperature_history (st : MockState) (medicine_id : Nat) :
    Except HTTPError TemperatureHistoryResponse :=
  (Except.ok
      { temperatures := (st.temperatureData medicine_id).map TempEntry.temperature,
        timestamps := (st.temperatureData medicine_id).map TempEntry.timestamp,
        transactionHashes := (st.temperatureData medicine_id).map TempEntry.txHash }
    : Except HTTPError TemperatureHistoryResponse).mapError
    (wrapCaught 500 "Blockchain query failed: ")

/-- Response model of `GET /medicines/{id}/location-history`. -/
structure LocationHistoryResponse where
  locations : List String
  timestamps : List Nat
  transactionHashes : List String
deriving DecidableEq, Repr

/-- `GET /medicines/{id}/location-history` (`get_location_history`). -/
def get_location_history (st : MockState) (medicine_id : Nat) :
    Except HTTPError LocationHistoryResponse :=
  (Except.ok
      { locations := (st.locationData medicine_id).map LocEntry.location,
        timestamps := (st.locationData medicine_id).map LocEntry.timestamp,
        transactionHashes := (st.locationData medicine_id).map LocEntry.txHash }
    : Except HTTPError LocationHistoryResponse).mapError
    (wrapCaught 500 "Blockchain query failed: ")

/-- The JSON body returned by `mark_medicine_expired`. -/
structure ExpireResult where
  success : Bool
  transaction_hash : String
  message : String
deriving DecidableEq, Repr

/-- The field updates `mark_medicine_expired` applies to the found dict. -/
def expireUpdate (medicine_id : Nat) (m : Medicine) : Medicine :=
  { m with
    status := .EXPIRED,
    blockchainTxHash := "0xexpire" ++ hex40 medicine_id,
    blockNumber := 3000 + medicine_id,
    gasUsed := 80000 }

/-- Body of `POST /medicines/{id}/expire` before the `except` wrap. -/
def mark_medicine_expired_body (st : MockState) (medicine_id : Nat) :
    Except HTTPError ExpireResult × MockState :=
  match findById medicine_id st.medicines with
  | none =>
    (Except.error { status := 404, detail := "Medicine not found on blockchain" }, st)
  | some _ =>
    (Except.ok
      { success := true,
        transaction_hash := "0xexpire" ++ hex40 medicine_id,
        message := "Medicine " ++ toString medicine_id ++ " marked as expired on blockchain" },
     { st with
       medicines :=
         updateFirst (fun m => m.id == medicine_id) (expireUpdate medicine_id) st.medicines })

/-- `POST /medicines/{id}/expire` (`mark_medicine_expired`). -/
def mark_medicine_expired (st : MockState) (medicine_id : Nat) :
    Except HTTPError ExpireResult × MockState :=
  let r := mark_medicine_expired_body st medicine_id
  (r.1.mapError (wrapCaught 400 "Blockchain transaction failed: "), r.2)

/-- The JSON body returned by `recall_medicine`. -/
structure RecallResult where
  success : Bool
  transaction_hash : String
  reason : String
  message : String
deriving DecidableEq, Repr

/-- The field updates `recall_medicine` applies to the found dict. -/
def recallUpdate (medicine_id : Nat) (m : Medicine) : Medicine :=
  { m with
    status := .RECALLED,
    blockchainTxHash := "0xrecall" ++ hex40 medicine_id,
    blockNumber := 4000 + medicine_id,
    gasUsed := 100000 }

/-- Body of `POST /medicines/{id}/recall` before the `except` wrap. -/
def recall_medicine_body (st : MockState) (medicine_id : Nat) (reason : String) :
    Except HTTPError RecallResult × MockState :=
  match findById medicine_id st.medicines with
  | none =>
    (Except.error { status := 404, detail := "Medicine not found on blockchain" }, st)
  | some _ =>
    (Except.ok
      { success := true,
        transaction_hash := "0xrecall" ++ hex40 medicine_id,
        reason := reason,
        message := "Medicine " ++ toString medicine_id ++ " recalled on blockchain" },
     { st with
       medicines :=
         updateFirst (fun m => m.id == medicine_id) (recallUpdate medicine_id) st.medicines })

/-- `POST /medicines/{id}/recall` (`recall_medicine`). -/
def recall_medicine (st : MockState) (medicine_id : Nat) (reason : String) :
    Except HTTPError RecallResult × MockState :=
  let r := recall_medicine_body st medicine_id reason
  (r.1.mapError (wrapCaught 400 "Blockchain transaction failed: "), r.2)

/-- One day in seconds, used by the `timedelta(days=k)` offsets of the
hardcoded data; `now0` below is the `datetime.now()` epoch second taken
at module import. -/
def day : Nat := 86400

/-- `BLOCKCHAIN_MEDICINES` from `main.py`. -/
def initialMedicines (now0 : Nat) : List Medicine :=
  [{ id := 1, name := "Aspirin", batchNumber := "ASP001",
     manufactureDate := now0 - 30 * day, expiryDate := now0 + 365 * day,
     manufacturer := addrManufacturer, currentOwner := addrManufacturer,
     status := .MANUFACTURED, temperatureThreshold := 25,
     temperatureSensitive := false, isActive := true,
     blockchainTxHash := "0x1234567890abcdef1234567890abcdef12345678",
     blockNumber := 1001, gasUsed := 150000,
     currentOwnerName := none, statusFormatted := none },
   { id := 2, name := "Insulin", batchNumber := "INS002",
     manufactureDate := now0 - 15 * day, expiryDate := now0 + 180 * day,
     manufacturer := addrManufacturer, currentOwner := addrDistributor,
     status := .SHIPPED_TO_DISTRIBUTOR, temperatureThreshold := 8,
     temperatureSensitive := true, isActive := true,
     blockchainTxHash := "0xabcdef1234567890abcdef1234567890abcdef12",
     blockNumber := 1002, gasUsed := 180000,
     currentOwnerName := none, statusFormatted := none },
   { id := 3, name := "Paracetamol", batchNumber := "PAR003",
     manufactureDate := now0 - 7 * day, expiryDate := now0 + 730 * day,
     manufacturer := addrManufacturer, currentOwner := addrPharmacy,
     status := .RECEIVED_BY_PHARMACY, temperatureThreshold := 30,
     temperatureSensitive := false, isActive := true,
     blockchainTxHash := "0x567890abcdef1234567890abcdef1234567890ab",
     blockNumber := 1003, gasUsed := 160000,
     currentOwnerName := none, statusFormatted := none },
   { id := 4, name := "Antibiotic", batchNumber := "ANT004",
     manufactureDate := now0 - 45 * day, expiryDate := now0 + 90 * day,
     manufacturer := addrManufacturer, currentOwner := addrPatient1,
     status := .SOLD_TO_PATIENT, temperatureThreshold := 20,
     temperatureSensitive := true, isActive := true,
     blockchainTxHash := "0x7890abcdef1234567890abcdef1234567890abcd",
     blockNumber := 1004, gasUsed := 170000,
     currentOwnerName := none, statusFormatted := none },
   { id := 5, name := "Vitamin D", batchNumber := "VIT005",
     manufactureDate := now0 - 60 * day, expiryDate := now0 - 1 * day,
     manufacturer := addrManufacturer, currentOwner := addrPatient2,
     status := .EXPIRED, temperatureThreshold := 25,
     temperatureSensitive := false, isActive := true,
     blockchainTxHash := "0x90abcdef1234567890abcdef1234567890abcdef",
     blockNumber := 1005, gasUsed := 140000,
     currentOwnerName := none, statusFormatted := none }]

/-- `BLOCKCHAIN_TEMPERATURE_DATA` from `main.py`. -/
def initialTemperatureData (now0 : Nat) : Nat → List TempEntry := fun i =>
  if i == 2 then
    [{ temperature := "5°C", timestamp := now0 - 10 * day, txHash := "0xtemp001" },
     { temperature := "6°C", timestamp := now0 - 8 * day, txHash := "0xtemp002" },
     { temperature := "4°C", timestamp := now0 - 5 * day, txHash := "0xtemp003" },
     { temperature := "7°C", timestamp := now0 - 2 * day, txHash := "0xtemp004" }]
  else if i == 4 then
    [{ temperature := "18°C", timestamp := now0 - 20 * day, txHash := "0xtemp005" },
     { temperature := "22°C", timestamp := now0 - 15 * day, txHash := "0xtemp006" }]
  else []

/-- `BLOCKCHAIN_LOCATION_DATA` from `main.py`. -/
def initialLocationData (now0 : Nat) : Nat → List LocEntry := fun i =>
  if i == 1 then
    [{ location := "Manufacturing Plant A", timestamp := now0 - 30 * day, txHash := "0xloc001" },
     { location := "Quality Control Lab", timestamp := now0 - 28 * day, txHash := "0xloc002" }]
  else if i == 2 then
    [{ location := "Manufacturing Plant A", timestamp := now0 - 15 * day, txHash := "0xloc003" },
     { location := "Cold Storage Facility", timestamp := now0 - 12 * day, txHash := "0xloc004" },
     { location := "Distribution Center", timestamp := now0 - 8 * day, txHash := "0xloc005" }]
  else if i == 3 then
    [{ location := "Manufacturing Plant A", timestamp := now0 - 7 * day, txHash := "0xloc006" },
     { location := "Warehouse B", timestamp := now0 - 5 * day, txHash := "0xloc007" },
     { location := "Pharmacy D", timestamp := now0 - 2 * day, txHash := "0xloc008" }]
  else if i == 4 then
    [{ location := "Manufacturing Plant A", timestamp := now0 - 45 * day, txHash := "0xloc009" },
     { location := "Pharmacy D", timestamp := now0 - 10 * day, txHash := "0xloc010" },
     { location := "Patient Home", timestamp := now0 - 1 * day, txHash := "0xloc011" }]
  else []

/-- A stage entry with no optional name keys. -/
def plainStage (stage : MedicineStatus) (location owner : String)
    (timestamp : Nat) (txHash : String) : StageEntry :=
  { stage := stage, location := location, owner := owner,
    timestamp := timestamp, txHash := txHash,
    recipientName := none, pharmacyName := none,
    distributorName := none, patientName := none }

/-- `BLOCKCHAIN_STAGES_DATA` from `main.py`. -/
def initialStagesData (now0 : Nat) : Nat → List StageEntry := fun i =>
  if i == 1 then
    [plainStage .MANUFACTURED "Manufacturing Plant A" addrManufacturer
       (now0 - 30 * day) "0xstage001"]
  else if i == 2 then
    [plainStage .MANUFACTURED "Manufacturing Plant A" addrManufacturer
       (now0 - 15 * day) "0xstage002",
     { plainStage .SHIPPED_TO_DISTRIBUTOR "Loading Dock A" addrDistributor
         (now0 - 13 * day) "0xstage003" with
       distributorName := some "Global Distributors Ltd.",
       recipientName := some "Global Distributors Ltd." },
     { plainStage .RECEIVED_BY_DISTRIBUTOR "Distribution Center" addrDistributor
         (now0 - 12 * day) "0xstage004" with
       distributorName := some "Global Distributors Ltd.",
       recipientName := some "Global Distributors Ltd." }]
  else if i == 3 then
    [plainStage .MANUFACTURED "Manufacturing Plant A" addrManufacturer
       (now0 - 7 * day) "0xstage005",
     { plainStage .SHIPPED_TO_DISTRIBUTOR "Loading Dock B" addrDistributor
         (now0 - 6 * day) "0xstage006" with
       distributorName := some "Global Distributors Ltd.",
       recipientName := some "Global Distributors Ltd." },
     { plainStage .RECEIVED_BY_DISTRIBUTOR "Warehouse B" addrDistributor
         (now0 - 5 * day) "0xstage007" with
       distributorName := some "Global Distributors Ltd.",
       recipientName := some "Global Distributors Ltd." },
     { plainStage .SHIPPED_TO_PHARMACY "Warehouse B - Outbound" addrPharmacy
         (now0 - 4 * day) "0xstage008" with
       pharmacyName := some "CITY Engg Pharmacy",
       recipientName := some "CITY Engg Pharmacy" },
     { plainStage .RECEIVED_BY_PHARMACY "CITY Engg Pharmacy" addrPharmacy
         (now0 - 2 * day) "0xstage009" with
       pharmacyName := some "CITY Engg Pharmacy",
       recipientName := some "CITY Engg Pharmacy" }]
  else if i == 4 then
    [plainStage .MANUFACTURED "Manufacturing Plant A" addrManufacturer
       (now0 - 45 * day) "0xstage010",
     { plainStage .SHIPPED_TO_DISTRIBUTOR "Loading Dock C" addrDistributor
         (now0 - 43 * day) "0xstage011" with
       distributorName := some "Global Distributors Ltd.",
       recipientName := some "Global Distributors Ltd." },
     { plainStage .RECEIVED_BY_DISTRIBUTOR "Distribution Center" addrDistributor
         (now0 - 42 * day) "0xstage012" with
       distributorName := some "Global Distributors Ltd.",
       recipientName := some "Global Distributors Ltd." },
     { plainStage .SHIPPED_TO_PHARMACY "Distribution Center - Outbound" addrPharmacy
         (now0 - 40 * day) "0xstage013" with
       pharmacyName := some "CITY Engg Pharmacy",
       recipientName := some "CITY Engg Pharmacy" },
     { plainStage .RECEIVED_BY_PHARMACY "CITY Engg Pharmacy" addrPharmacy
         (now0 - 38 * day) "0xstage014" with
       pharmacyName := some "CITY Engg Pharmacy",
       recipientName := some "CITY Engg Pharmacy" },
     { plainStage .SOLD_TO_PATIENT "Patient Home" addrPatient1
         (now0 - 1 * day) "0xstage015" with
       patientName := some "John Smith",
       recipientName := some "John Smith" }]
  else if i == 5 then
    [plainStage .MANUFACTURED "Manufacturing Plant A" addrManufacturer
       (now0 - 60 * day) "0xstage016",
     plainStage .SHIPPED_TO_DISTRIBUTOR "Loading Dock D" addrDistributor
       (now0 - 58 * day) "0xstage017",
     { plainStage .RECEIVED_BY_PHARMACY "CITY Engg Pharmacy" addrPharmacy
         (now0 - 2 * day) "0xstage018" with
       pharmacyName := some "CITY Engg Pharmacy" },
     plainStage .EXPIRED "CITY Engg Pharmacy - Expired Stock" addrPatient2
       (now0 - 1 * day) "0xstage019"]
  else []

/-- The module state of `main.py` right after import. -/
def initialState (now0 : Nat) : MockState :=
  { medicines := initialMedicines now0,
    temperatureData := initialTemperatureData now0,
    locationData := initialLocationData now0,
    stagesData := initialStagesData now0 }

end Mock

namespace BC

/-- The positional fields of the tuple returned by the contract method
`getMedicine`; the decode in the source reads positions 0 to 9 and 15, so
the unused positions 10 to 14 are not modelled. -/
structure ChainMedicine where
  id : Nat
  name : String
  batchNumber : String
  manufactureDate : Nat
  expiryDate : Nat
  manufacturer : String
  currentOwner : String
  statusCode : Nat
  temperatureThreshold : Int
  temperatureSensitive : Bool
  isActive : Bool
deriving DecidableEq, Repr

/-- The dict `BlockchainService.get_medicine` builds from the raw tuple. -/
structure MedicineDict where
  id : Nat
  name : String
  batchNumber : String
  manufactureDate : Nat
  expiryDate : Nat
  manufacturer : String
  currentOwner : String
  status : MedicineStatus
  temperatureThreshold : Int
  temperatureSensitive : Bool
  isActive : Bool
deriving DecidableEq, Repr

/-- A state-changing contract method invocation with its arguments. -/
inductive ContractCall where
  | manufactureMedicine (name batchNumber : String) (expiryDate : Nat)
      (temperatureThreshold : Int) (temperatureSensitive : Bool)
  | transferMedicine (medicine_id : Nat) (toAddress : String)
      (statusValue : String) (location : String)
  | updateTemperature (medicine_id : Nat) (temperature : String)
  | updateLocation (medicine_id : Nat) (location : String)
  | markAsExpired (medicine_id : Nat)
  | recallMedicine (medicine_id : Nat) (reason : String)
deriving DecidableEq, Repr

/-- The transaction built by `build_transaction`; signing adds no
observable data, so the signed payload is identified with the request. -/
structure TxRequest where
  call : ContractCall
  fromAddress : String
  gas : Nat
  gasPrice : Nat
  nonce : Nat
deriving DecidableEq, Repr

/-- The receipt returned by `wait_for_transaction_receipt`;
`manufacturedEventIds` is the `medicineId` argument of each decoded
`MedicineManufactured` event in the log. -/
structure Receipt where
  transactionHash : String
  manufacturedEventIds : List Nat
deriving DecidableEq, Repr

/-- The external node and the two bound contracts, as abstract behaviours:
read-only calls are functions of their arguments, and
`sendAndWait` is `send_raw_transaction` followed by
`wait_for_transaction_receipt` (an error is a raised exception, covering
ledger rejection and receipt timeout).  `getMedicineCall` returns `none`
when the call raises (the nonexistent-id revert). -/
structure Chain where
  nodeLive : Bool
  accounts : List String
  gasPrice : Nat
  transactionCount : String → Nat
  getMedicineCall : Nat → Option ChainMedicine
  getTotalMedicinesCall : Nat
  getMedicinesByBatchCall : String → List Nat
  getTemperatureHistoryCall : Nat → List String × List Nat
  getLocationHistoryCall : Nat → List String × List Nat
  getRoleCall : String → Nat
  sendAndWait : TxRequest → Except String Receipt

/-- The per-contract part of `deployment-info.json` (the ABI string is
consumed only by contract binding, which is abstracted into `Chain`). -/
structure ContractDeployment where
  address : String
deriving DecidableEq, Repr

/-- The deployment descriptor `self.deployment_info`. -/
structure DeploymentInfo where
  accessControl : ContractDeployment
  medicineSupplyChain : ContractDeployment
  network : String
  chainId : Nat
deriving DecidableEq, Repr

/-- The fields of a `BlockchainService` instance: the `connected` flag,
whether `self.w3` is set, the loaded descriptor, and the external chain. -/
structure Service where
  connectedFlag : Bool
  hasW3 : Bool
  deployment_info : Option DeploymentInfo
  chain : Chain

/-- The message of the exception raised by every connectivity guard. -/
def notConnectedMsg : String := "Not connected to blockchain"

/-- `BlockchainService.is_connected`:
`self.connected and self.w3 is not None and self.w3.is_connected()`. -/
def is_connected (s : Service) : Bool :=
  s.connectedFlag && s.hasW3 && s.chain.nodeLive

/-- `BlockchainService.get_account`: the first account of the node;
an empty account list raises an index error. -/
def get_account (s : Service) : Except String String :=
  if !is_connected s then Except.error notConnectedMsg
  else
    match s.chain.accounts with
    | [] => Except.error "list index out of range"
    | a :: _ => Except.ok a

/-- The decode step of `BlockchainService.get_medicine`, inside the same
`try`: a raised call (`none` input) or a failed status decode makes the
whole body return `None`. -/
def decodeMedicine (raw : Option ChainMedicine) : Option MedicineDict :=
  match raw with
  | none => none
  | some d =>
    match MedicineStatus.ofCode d.statusCode with
    | none => none
    | some status =>
      some { id := d.id, name := d.name, batchNumber := d.batchNumber,
             manufactureDate := d.manufactureDate, expiryDate := d.expiryDate,
             manufacturer := d.manufacturer, currentOwner := d.currentOwner,
             status := status,
             temperatureThreshold := d.temperatureThreshold,
             temperatureSensitive := d.temperatureSensitive,
             isActive := d.isActive }

/-- `BlockchainService.get_medicine`. -/
def get_medicine (s : Service) (medicine_id : Nat) :
    Except String (Option MedicineDict) :=
  if !is_connected s then Except.error notConnectedMsg
  else Except.ok (decodeMedicine (s.chain.getMedicineCall medicine_id))

/-- The transaction `manufacture_medicine` builds, with gas 500000 and
the gas price and nonce fetched from the node at submission time. -/
def manufactureTx (s : Service) (account name batch_number : String)
    (expiry_date : Nat) (temperature_threshold : Int)
    (temperature_sensitive : Bool) : TxRequest :=
  { call := .manufactureMedicine name batch_number expiry_date
      temperature_threshold temperature_sensitive,
    fromAddress := account, gas := 500000,
    gasPrice := s.chain.gasPrice,
    nonce := s.chain.transactionCount account }

/-- `BlockchainService.manufacture_medicine`: submit, wait, read the
medicine id off the first decoded `MedicineManufactured` event (index `[0]`
of an empty event tuple raises), then fetch the full record for that id. -/
def manufacture_medicine (s : Service) (name batch_number : String)
    (expiry_date : Nat) (temperature_threshold : Int)
    (temperature_sensitive : Bool) : Except String (Option MedicineDict) :=
  if !is_connected s then Except.error notConnectedMsg
  else do
    let account ← get_account s
    let receipt ← s.chain.sendAndWait
      (manufactureTx s account name batch_number expiry_date
        temperature_threshold temperature_sensitive)
    match receipt.manufacturedEventIds with
    | [] => Except.error "list index out of range"
    | medicine_id :: _ => get_medicine s medicine_id

/-- `BlockchainService.get_all_medicines`: read the total count, then
fetch ids `1..total` sequentially, keeping the non-`None` results. -/
def get_all_medicines (s : Service) : Except String (List MedicineDict) :=
  if !is_connected s then Except.error notConnectedMsg
  else
    (List.range' 1 s.chain.getTotalMedicinesCall).foldlM
      (fun medicines i => do
        match ← get_medicine s i with
        | some m => pure (medicines ++ [m])
        | none => pure medicines)
      []

/-- `BlockchainService.get_medicines_by_batch`. -/
def get_medicines_by_batch (s : Service) (batch_number : String) :
    Except String (List MedicineDict) :=
  if !is_connected s then Except.error notConnectedMsg
  else
    (s.chain.getMedicinesByBatchCall batch_number).foldlM
      (fun medicines i => do
        match ← get_medicine s i with
        | some m => pure (medicines ++ [m])
        | none => pure medicines)
      []

/-- `BlockchainService.transfer_medicine`: the status string names an
enum member (`getattr`), and the member value is what the contract call
carries; the receipt hash is returned. -/
def transfer_medicine (s : Service) (medicine_id : Nat)
    (to_address new_status location : String) : Except String String :=
  if !is_connected s then Except.error notConnectedMsg
  else do
    let account ← get_account s
    let status_enum ←
      match MedicineStatus.byName new_status with
      | some v => pure v.value
      | none =>
        Except.error ("type object MedicineStatus has no attribute " ++ new_status)
    let receipt ← s.chain.sendAndWait
      { call := .transferMedicine medicine_id to_address status_enum location,
        fromAddress := account, gas := 500000,
        gasPrice := s.chain.gasPrice,
        nonce := s.chain.transactionCount account }
    Except.ok receipt.transactionHash

/-- `BlockchainService.update_temperature`. -/
def update_temperature (s : Service) (medicine_id : Nat)
    (temperature : String) : Except String String :=
  if !is_connected s then Except.error notConnectedMsg
  else do
    let account ← get_account s
    let receipt ← s.chain.sendAndWait
      { call := .updateTemperature medicine_id temperature,
        fromAddress := account, gas := 200000,
        gasPrice := s.chain.gasPrice,
        nonce := s.chain.transactionCount account }
    Except.ok receipt.transactionHash

/-- `BlockchainService.update_location`. -/
def update_location (s : Service) (medicine_id : Nat)
    (location : String) : Except String String :=
  if !is_connected s then Except.error notConnectedMsg
  else do
    let account ← get_account s
    let receipt ← s.chain.sendAndWait
      { call := .updateLocation medicine_id location,
        fromAddress := account, gas := 200000,
        gasPrice := s.chain.gasPrice,
        nonce := s.chain.transactionCount account }
    Except.ok receipt.transactionHash

/-- `BlockchainService.get_temperature_history`. -/
def get_temperature_history (s : Service) (medicine_id : Nat) :
    Except String (List String × List Nat) :=
  if !is_connected s then Except.error notConnectedMsg
  else Except.ok (s.chain.getTemperatureHistoryCall medicine_id)

/-- `BlockchainService.get_location_history`. -/
def get_location_history (s : Service) (medicine_id : Nat) :
    Except String (List String × List Nat) :=
  if !is_connected s then Except.error notConnectedMsg
  else Except.ok (s.chain.getLocationHistoryCall medicine_id)

/-- `BlockchainService.mark_as_expired`. -/
def mark_as_expired (s : Service) (medicine_id : Nat) : Except String String :=
  if !is_connected s then Except.error notConnectedMsg
  else do
    let account ← get_account s
    let receipt ← s.chain.sendAndWait
      { call := .markAsExpired medicine_id,
        fromAddress := account, gas := 200000,
        gasPrice := s.chain.gasPrice,
        nonce := s.chain.transactionCount account }
    Except.ok receipt.transactionHash

/-- `BlockchainService.recall_medicine`. -/
def recall_medicine (s : Service) (medicine_id : Nat)
    (reason : String) : Except String String :=
  if !is_connected s then Except.error notConnectedMsg
  else do
    let account ← get_account s
    let receipt ← s.chain.sendAndWait
      { call := .recallMedicine medicine_id reason,
        fromAddress := account, gas := 200000,
        gasPrice := s.chain.gasPrice,
        nonce := s.chain.transactionCount account }
    Except.ok receipt.transactionHash

/-- The dict `BlockchainService.get_contract_info` returns. -/
structure ContractInfo where
  accessControlAddress : String
  medicineSupplyChainAddress : String
  network : String
  chainId : Nat
deriving DecidableEq, Repr

/-- `BlockchainService.get_contract_info`: it checks only that the
deployment descriptor is loaded, with no connectivity guard. -/
def get_contract_info (s : Service) : Except String ContractInfo :=
  match s.deployment_info with
  | none => Except.error "Deployment info not available"
  | some d =>
    Except.ok
      { accessControlAddress := d.accessControl.address,
        medicineSupplyChainAddress := d.medicineSupplyChain.address,
        network := d.network, chainId := d.chainId }

/-- `BlockchainService.get_user_role`: a failed role decode raises a
`ValueError` that propagates. -/
def get_user_role (s : Service) (address : String) : Except String String :=
  if !is_connected s then Except.error notConnectedMsg
  else
    match Role.ofCode (s.chain.getRoleCall address) with
    | some r => Except.ok r.value
    | none =>
      Except.error (toString (s.chain.getRoleCall address) ++ " is not a valid Role")

end BC

/-! Concrete fixtures used by the closed statements below. -/

/-- A concrete import-time clock value, 100 days after the epoch. -/
def T0 : Nat := 100 * Mock.day

/-- The mock module state at import, at clock `T0`. -/
def mockInit : Mock.MockState := Mock.initialState T0

/-- A transfer request shipping to the distributor. -/
def trShip : Mock.MedicineTransfer :=
  { toAddress := Mock.addrDistributor, newStatus := .SHIPPED_TO_DISTRIBUTOR,
    location := "Loading Dock A", recipientName := none }

/-- Recall of medicine 1 on the initial mock state. -/
def c2recall : Except Mock.HTTPError Mock.RecallResult × Mock.MockState :=
  Mock.recall_medicine mockInit 1 "contamination"

/-- Transfer of medicine 1 right after the recall above. -/
def c2transfer : Except Mock.HTTPError Mock.TransferResult × Mock.MockState :=
  Mock.transfer_medicine c2recall.2 T0 1 trShip

/-- A schema-valid creation request whose expiry date is in the past. -/
def mcPastExpiry : Mock.MedicineCreate :=
  { name := "Aspirin", batchNumber := "ASP001", expiryDate := 0,
    temperatureThreshold := 25, temperatureSensitive := false }

/-- Manufacture of `mcPastExpiry` on the initial mock state at clock `T0`. -/
def c3create : Except Mock.HTTPError Mock.Medicine × Mock.MockState :=
  Mock.create_medicine mockInit T0 mcPastExpiry

/-- A soft-deleted, non-temperature-sensitive medicine. -/
def inactiveMed : Mock.Medicine :=
  { id := 1, name := "Aspirin", batchNumber := "ASP001",
    manufactureDate := 10, expiryDate := 20,
    manufacturer := Mock.addrManufacturer, currentOwner := Mock.addrManufacturer,
    status := .MANUFACTURED, temperatureThreshold := 25,
    temperatureSensitive := false, isActive := false,
    blockchainTxHash := "0x00", blockNumber := 1001, gasUsed := 150000,
    currentOwnerName := none, statusFormatted := none }

/-- A mock state whose only medicine is inactive. -/
def stInactive : Mock.MockState :=
  { medicines := [inactiveMed],
    temperatureData := fun _ => [],
    locationData := fun _ => [],
    stagesData := fun _ => [] }

/-- The descriptor content named in the mock contract-info route. -/
def dep0 : BC.DeploymentInfo :=
  { accessControl := { address := "0x5FbDB2315678afecb367f032d93F642f64180aa3" },
    medicineSupplyChain := { address := "0xe7f1725E7734CE288F8367e1Bb143E90bb3F0512" },
    network := "localhost", chainId := 1337 }

/-- A live node with one account and an empty supply-chain registry. -/
def chainBase : BC.Chain :=
  { nodeLive := true,
    accounts := [Mock.addrManufacturer],
    gasPrice := 1000000000,
    transactionCount := fun _ => 0,
    getMedicineCall := fun _ => none,
    getTotalMedicinesCall := 0,
    getMedicinesByBatchCall := fun _ => [],
    getTemperatureHistoryCall := fun _ => ([], []),
    getLocationHistoryCall := fun _ => ([], []),
    getRoleCall := fun _ => 0,
    sendAndWait := fun _ => Except.error "execution reverted" }

/-- A connected service over the empty registry. -/
def svcEmpty : BC.Service :=
  { connectedFlag := true, hasW3 := true, deployment_info := some dep0,
    chain := chainBase }

/-- A connected service whose count says one medicine exists but whose
record fetch for id 1 raises. -/
def svcMissingOne : BC.Service :=
  { connectedFlag := true, hasW3 := true, deployment_info := some dep0,
    chain := { chainBase with getTotalMedicinesCall := 1 } }

/-- A service with a loaded descriptor whose node connection is down. -/
def svcDisconnected : BC.Service :=
  { connectedFlag := false, hasW3 := true, deployment_info := some dep0,
    chain := chainBase }

/-- The raw record the concrete chain below serves for id 7. -/
def chainMed7 : BC.ChainMedicine :=
  { id := 7, name := "Aspirin", batchNumber := "ASP001",
    manufactureDate := 50, expiryDate := 100,
    manufacturer := Mock.addrManufacturer, currentOwner := Mock.addrManufacturer,
    statusCode := 0, temperatureThreshold := 25,
    temperatureSensitive := false, isActive := true }

/-- A connected service whose submissions confirm with one
`MedicineManufactured` event assigning id 7, and which serves id 7. -/
def svcManu : BC.Service :=
  { connectedFlag := true, hasW3 := true, deployment_info := some dep0,
    chain :=
      { chainBase with
        sendAndWait := fun _ =>
          Except.ok { transactionHash := "0xabc", manufacturedEventIds := [7] },
        getMedicineCall := fun i => if i == 7 then some chainMed7 else none } }

/-- A connected service whose submissions confirm but whose receipts
carry no decoded `MedicineManufactured` event. -/
def svcNoEvent : BC.Service :=
  { connectedFlag := true, hasW3 := true, deployment_info := some dep0,
    chain :=
      { chainBase with
        sendAndWait := fun _ =>
          Except.ok { transactionHash := "0xabc", manufacturedEventIds := [] } } }

/-- The medicine stored under a given id in the initial mock state. -/
def medW (i : Nat) : Mock.Medicine :=
  (Mock.findById i mockInit.medicines).getD inactiveMed

/-- A schema-valid creation request expiring 365 days after `T0`. -/
def mcFuture : Mock.MedicineCreate :=
  { name := "Aspirin", batchNumber := "ASP001",
    expiryDate := T0 + 365 * Mock.day,
    temperatureThreshold := 25, temperatureSensitive := false }

/-- A connected service whose count reports two medicines of which only
id 2 fetches and decodes. -/
def svcPartial : BC.Service :=
  { connectedFlag := true, hasW3 := true, deployment_info := some dep0,
    chain :=
      { chainBase with
        getTotalMedicinesCall := 2,
        getMedicineCall := fun i => if i == 2 then some chainMed7 else none } }

/-! Helper lemmas shared by the claim theorems. -/

/-- Looking a medicine up by id after an in-place update of the first
id-match rewrites the lookup result through the update, for any update
that preserves the id field. -/
theorem findById_updateFirst (medicine_id : Nat) (f : Mock.Medicine → Mock.Medicine)
    (hf : ∀ m, (f m).id = m.id) (l : List Mock.Medicine) :
    Mock.findById medicine_id (Mock.updateFirst (fun m => m.id == medicine_id) f l)
      = (Mock.findById medicine_id l).map f := by
  induction l with
  | nil => simp [Mock.findById, Mock.updateFirst]
  | cons a as ih =>
    cases h : (a.id == medicine_id) with
    | true =>
      simp [Mock.findById, Mock.updateFirst, h, List.find?, hf a]
    | false =>
      simpa [Mock.findById, Mock.updateFirst, h, List.find?] using ih

/-- If the first id-match is active, then after an in-place update that
preserves id and activity, the active-filtered lookup finds exactly the
updated medicine. -/
theorem findByIdActive_updateFirst (medicine_id : Nat)
    (f : Mock.Medicine → Mock.Medicine)
    (hfid : ∀ m, (f m).id = m.id) (hfact : ∀ m, (f m).isActive = m.isActive)
    (l : List Mock.Medicine) (m : Mock.Medicine)
    (hfind : Mock.findById medicine_id l = some m) (hact : m.isActive = true) :
    Mock.findByIdActive medicine_id
        (Mock.updateFirst (fun x => x.id == medicine_id) f l)
      = some (f m) := by
  induction l with
  | nil => simp [Mock.findById] at hfind
  | cons a as ih =>
    cases h : (a.id == medicine_id) with
    | true =>
      have ha : a = m := by
        simpa [Mock.findById, List.find?, h] using hfind
      subst ha
      simp [Mock.findByIdActive, Mock.updateFirst, h, List.find?, hfid a, hfact a, hact]
    | false =>
      have hfind' : Mock.findById medicine_id as = some m := by
        simpa [Mock.findById, List.find?, h] using hfind
      simpa [Mock.findByIdActive, Mock.updateFirst, h, List.find?] using ih hfind'

/-- The length of a `filterMap` is the number of elements the function
keeps. -/
theorem length_filterMap_eq_countP {α β : Type} (f : α → Option β) (l : List α) :
    (l.filterMap f).length = l.countP (fun a => (f a).isSome) := by
  induction l with
  | nil => simp
  | cons a as ih =>
    cases h : f a with
    | none => simp [List.filterMap_cons, List.countP_cons, h, ih]
    | some b => simp [List.filterMap_cons, List.countP_cons, h, ih]

/-- Bind on a successful `Except` computation applies the continuation. -/
theorem exceptOk_bind {ε α β : Type} (a : α) (f : α → Except ε β) :
    (Except.ok a >>= f) = f a := rfl

/-- `pure` of the `Except` monad is `Except.ok`. -/
theorem exceptPure {ε α : Type} (a : α) : (pure a : Except ε α) = Except.ok a := rfl

/-- The accumulation loop shared by `BC.get_all_medicines` and
`BC.get_medicines_by_batch`: on a connected service it never fails and
keeps exactly the ids whose fetch decodes. -/
theorem BC.collect_eq (s : BC.Service) (h : BC.is_connected s = true)
    (ids : List Nat) (acc : List BC.MedicineDict) :
    (ids.foldlM
        (fun medicines i => do
          match ← BC.get_medicine s i with
          | some m => pure (medicines ++ [m])
          | none => pure medicines)
        acc : Except String (List BC.MedicineDict))
      = Except.ok
          (acc ++ ids.filterMap (fun i => BC.decodeMedicine (s.chain.getMedicineCall i))) := by
  induction ids generalizing acc with
  | nil => simp [List.foldlM, exceptPure]
  | cons i is ih =>
    have hstep : BC.get_medicine s i
        = Except.ok (BC.decodeMedicine (s.chain.getMedicineCall i)) := by
      simp [BC.get_medicine, h]
    simp only [exceptPure] at ih
    cases hd : BC.decodeMedicine (s.chain.getMedicineCall i) with
    | none =>
      simp only [List.foldlM_cons, hstep, hd, exceptOk_bind, exceptPure]
      simp [List.filterMap_cons, hd, ih]
    | some m =>
      simp only [List.foldlM_cons, hstep, hd, exceptOk_bind, exceptPure]
      simp [List.filterMap_cons, hd, ih, List.append_assoc]

/-! Claim theorems. -/

/-- Claim C1 (code defect).  The claim says `getMedicine` on an absent or
inactive id yields a NotFound result: HTTP 404 on the mock path, `None` on
the ledger path.  The mock handler does raise a 404, but its own blanket
`except Exception` catches that very exception and re-raises it as HTTP
500, so the surfaced response for `getMedicine(9999)` on the seeded state
is a 500 wrapping the 404 text.  The ledger path behaves as claimed and
returns `None` without raising. -/
theorem c1_get_medicine_absent_wraps_404_into_500 :
    Mock.get_medicine mockInit 9999
      = Except.error
          { status := 500,
            detail := "Blockchain query failed: 404: Medicine not found on blockchain" } ∧
    BC.get_medicine svcEmpty 9999 = Except.ok none :=
  ⟨rfl, rfl⟩

/-- Claim C2, counterexample.  On the initial mock state, recalling
medicine 1 sets its status to RECALLED, yet a subsequent transfer on the
same id reports success and moves the medicine to the requested status,
so the transfer is not rejected and RECALLED is not a sink state. -/
theorem c2_cex_transfer_after_recall_succeeds :
    (Mock.findById 1 c2recall.2.medicines).map Mock.Medicine.status = some .RECALLED ∧
    c2transfer.1.toOption.map Mock.TransferResult.success = some true ∧
    (Mock.findById 1 c2transfer.2.medicines).map Mock.Medicine.status
      = some .SHIPPED_TO_DISTRIBUTOR :=
  ⟨rfl, rfl, rfl⟩

/-- Claim C2 as amended.  `markAsExpired` and `recall` do set the
terminal status, but the mock transfer handler performs no terminal-state
check: a subsequent transfer on the same id succeeds and overwrites the
status with the requested one, for both terminal statuses. -/
theorem c2_terminal_status_not_enforced (st : Mock.MockState) (now2 medicine_id : Nat)
    (m : Mock.Medicine) (reason : String) (tr : Mock.MedicineTransfer)
    (h : Mock.findById medicine_id st.medicines = some m) :
    ((Mock.recall_medicine st medicine_id reason).1.toOption.map
        Mock.RecallResult.success = some true) ∧
    ((Mock.findById medicine_id (Mock.recall_medicine st medicine_id reason).2.medicines).map
        Mock.Medicine.status = some .RECALLED) ∧
    ((Mock.transfer_medicine (Mock.recall_medicine st medicine_id reason).2 now2 medicine_id
        tr).1.toOption.map Mock.TransferResult.success = some true) ∧
    ((Mock.findById medicine_id (Mock.transfer_medicine
        (Mock.recall_medicine st medicine_id reason).2 now2 medicine_id tr).2.medicines).map
        Mock.Medicine.status = some tr.newStatus) ∧
    ((Mock.mark_medicine_expired st medicine_id).1.toOption.map
        Mock.ExpireResult.success = some true) ∧
    ((Mock.findById medicine_id (Mock.mark_medicine_expired st medicine_id).2.medicines).map
        Mock.Medicine.status = some .EXPIRED) ∧
    ((Mock.transfer_medicine (Mock.mark_medicine_expired st medicine_id).2 now2 medicine_id
        tr).1.toOption.map Mock.TransferResult.success = some true) ∧
    ((Mock.findById medicine_id (Mock.transfer_medicine
        (Mock.mark_medicine_expired st medicine_id).2 now2 medicine_id tr).2.medicines).map
        Mock.Medicine.status = some tr.newStatus) := by
  have hrid : ∀ x, (Mock.recallUpdate medicine_id x).id = x.id := fun x => rfl
  have heid : ∀ x, (Mock.expireUpdate medicine_id x).id = x.id := fun x => rfl
  have htid : ∀ x, (Mock.transferUpdate tr medicine_id x).id = x.id := fun x => rfl
  have hfr : Mock.findById medicine_id
      (Mock.recall_medicine st medicine_id reason).2.medicines
      = some (Mock.recallUpdate medicine_id m) := by
    simp [Mock.recall_medicine, Mock.recall_medicine_body, h,
      findById_updateFirst medicine_id (Mock.recallUpdate medicine_id) hrid]
  have hfe : Mock.findById medicine_id
      (Mock.mark_medicine_expired st medicine_id).2.medicines
      = some (Mock.expireUpdate medicine_id m) := by
    simp [Mock.mark_medicine_expired, Mock.mark_medicine_expired_body, h,
      findById_updateFirst medicine_id (Mock.expireUpdate medicine_id) heid]
  refine ⟨?_, ?_, ?_, ?_, ?_, ?_, ?_, ?_⟩
  · simp [Mock.recall_medicine, Mock.recall_medicine_body, h,
      Except.mapError, Except.toOption]
  · simp [hfr, Mock.recallUpdate]
  · simp [Mock.transfer_medicine, Mock.transfer_medicine_body, hfr,
      Except.mapError, Except.toOption]
  · simp [Mock.transfer_medicine, Mock.transfer_medicine_body, hfr,
      findById_updateFirst medicine_id (Mock.transferUpdate tr medicine_id) htid,
      Mock.transferUpdate]
  · simp [Mock.mark_medicine_expired, Mock.mark_medicine_expired_body, h,
      Except.mapError, Except.toOption]
  · simp [hfe, Mock.expireUpdate]
  · simp [Mock.transfer_medicine, Mock.transfer_medicine_body, hfe,
      Except.mapError, Except.toOption]
  · simp [Mock.transfer_medicine, Mock.transfer_medicine_body, hfe,
      findById_updateFirst medicine_id (Mock.transferUpdate tr medicine_id) htid,
      Mock.transferUpdate]

/-- Witness for the amended claim C2, at medicine 1 of the seeded state. -/
theorem c2_terminal_status_not_enforced_witness :
    Mock.findById 1 mockInit.medicines = some (medW 1) ∧
    ((Mock.recall_medicine mockInit 1 "contamination").1.toOption.map
        Mock.RecallResult.success = some true) :=
  ⟨rfl, (c2_terminal_status_not_enforced mockInit T0 1 (medW 1) "contamination" trShip rfl).1⟩

/-- Claim C3, counterexample.  The creation request with a past expiry
date (epoch 0) passes the schema and is accepted: the returned medicine
has status MANUFACTURED and is active, but its manufacture date (the
current clock) exceeds its expiry date, so the claimed conjunction fails
on this valid input. -/
theorem c3_cex_past_expiry_accepted :
    c3create.1.toOption.map
        (fun m => (m.status == .MANUFACTURED, m.isActive,
          decide (m.manufactureDate ≤ m.expiryDate)))
      = some (true, true, false) :=
  rfl

/-- Claim C3 as amended.  For every creation request accepted by the
schema whose expiry date is representable as a Python datetime (below
the year-10000 limit) and not earlier than the clock at manufacture, the
operation succeeds and the returned medicine has status MANUFACTURED, is
active, and satisfies `manufactureDate ≤ expiryDate`.  Without the
clock-side condition the date invariant can fail, since the handler
performs no expiry check; and a request whose expiry date is at or
beyond the representability limit is rejected with an HTTP 400 (the
caught `fromtimestamp` error), leaving the state unchanged with no
medicine created. -/
theorem c3_create_medicine_spec (st : Mock.MockState) (now : Nat)
    (mc : Mock.MedicineCreate)
    (h0 : mc.expiryDate < Mock.fromtimestampLimit)
    (h : now ≤ mc.expiryDate) :
    (∃ m st2, Mock.create_medicine st now mc = (Except.ok m, st2) ∧
      m.status = .MANUFACTURED ∧ m.isActive = true ∧
      m.manufactureDate ≤ m.expiryDate) ∧
    (∀ mc2 : Mock.MedicineCreate, Mock.fromtimestampLimit ≤ mc2.expiryDate →
      ∃ e, Mock.create_medicine st now mc2 = (Except.error e, st) ∧
        e.status = 400) := by
  constructor
  · simp only [Mock.create_medicine]
    rw [if_neg (Nat.not_le.mpr h0)]
    exact ⟨_, _, rfl, rfl, rfl, h⟩
  · intro mc2 h2
    simp only [Mock.create_medicine]
    rw [if_pos h2]
    exact ⟨_, rfl, rfl⟩

/-- Witness for the amended claim C3, on the seeded state at clock `T0`. -/
theorem c3_create_medicine_spec_witness :
    (mcFuture.expiryDate < Mock.fromtimestampLimit ∧ T0 ≤ mcFuture.expiryDate) ∧
    (∃ m st2, Mock.create_medicine mockInit T0 mcFuture = (Except.ok m, st2) ∧
      m.status = .MANUFACTURED ∧ m.isActive = true ∧
      m.manufactureDate ≤ m.expiryDate) :=
  ⟨⟨by decide, by decide⟩,
   (c3_create_medicine_spec mockInit T0 mcFuture (by decide) (by decide)).1⟩

/-- Claim C4, counterexample.  On a connected service whose total count
reads 1 but whose record fetch for id 1 raises (so the fetch yields
`None` and is skipped), `getAllMedicines` returns an empty list: the
result size differs from the independently-read total count. -/
theorem c4_cex_get_all_size_below_count :
    ¬ ((BC.get_all_medicines svcMissingOne).toOption.map List.length
        = some svcMissingOne.chain.getTotalMedicinesCall) := by
  decide

/-- Claim C4 as amended.  `getAllMedicines` reads the total count and
fetches ids `1..count` sequentially, but keeps only the ids whose fetch
returns a record: the result size equals the number of ids in `1..count`
whose fetch and decode succeed, which is at most the count (with equality
exactly when every id in the range yields a record). -/
theorem c4_get_all_medicines_size (s : BC.Service) (h : BC.is_connected s = true) :
    BC.get_all_medicines s
      = Except.ok ((List.range' 1 s.chain.getTotalMedicinesCall).filterMap
          (fun i => BC.decodeMedicine (s.chain.getMedicineCall i))) ∧
    ((List.range' 1 s.chain.getTotalMedicinesCall).filterMap
        (fun i => BC.decodeMedicine (s.chain.getMedicineCall i))).length
      = (List.range' 1 s.chain.getTotalMedicinesCall).countP
          (fun i => (BC.decodeMedicine (s.chain.getMedicineCall i)).isSome) ∧
    (List.range' 1 s.chain.getTotalMedicinesCall).countP
        (fun i => (BC.decodeMedicine (s.chain.getMedicineCall i)).isSome)
      ≤ s.chain.getTotalMedicinesCall := by
  refine ⟨?_, length_filterMap_eq_countP _ _, ?_⟩
  · have hc := BC.collect_eq s h (List.range' 1 s.chain.getTotalMedicinesCall) []
    simpa [BC.get_all_medicines, h] using hc
  · calc (List.range' 1 s.chain.getTotalMedicinesCall).countP
          (fun i => (BC.decodeMedicine (s.chain.getMedicineCall i)).isSome)
        ≤ (List.range' 1 s.chain.getTotalMedicinesCall).length :=
          List.countP_le_length _
      _ = s.chain.getTotalMedicinesCall := by simp

/-- Witness for the amended claim C4, on a connected service reporting two
ids of which only id 2 decodes. -/
theorem c4_get_all_medicines_size_witness :
    BC.is_connected svcPartial = true ∧
    BC.get_all_medicines svcPartial
      = Except.ok ((List.range' 1 svcPartial.chain.getTotalMedicinesCall).filterMap
          (fun i => BC.decodeMedicine (svcPartial.chain.getMedicineCall i))) :=
  ⟨rfl, (c4_get_all_medicines_size svcPartial rfl).1⟩

/-- Claim C5, counterexample.  On a service whose node connection is down
but whose deployment descriptor is loaded, `getContractInfo` does not
re-check liveness: it returns the contract information instead of failing
with a not-connected error. -/
theorem c5_cex_get_contract_info_skips_liveness :
    BC.is_connected svcDisconnected = false ∧
    BC.get_contract_info svcDisconnected
      = Except.ok
          { accessControlAddress := "0x5FbDB2315678afecb367f032d93F642f64180aa3",
            medicineSupplyChainAddress := "0xe7f1725E7734CE288F8367e1Bb143E90bb3F0512",
            network := "localhost", chainId := 1337 } :=
  ⟨rfl, rfl⟩

/-- Claim C5 as amended.  Every ledger-backed operation except
`getContractInfo` re-checks liveness first and fails with the
not-connected error before any contract interaction; `getContractInfo`
checks only that the deployment descriptor is loaded. -/
theorem c5_operations_fail_fast_when_disconnected (s : BC.Service)
    (h : BC.is_connected s = false) :
    (∀ n b e t ts, BC.manufacture_medicine s n b e t ts
        = Except.error BC.notConnectedMsg) ∧
    (∀ i, BC.get_medicine s i = Except.error BC.notConnectedMsg) ∧
    (BC.get_all_medicines s = Except.error BC.notConnectedMsg) ∧
    (∀ b, BC.get_medicines_by_batch s b = Except.error BC.notConnectedMsg) ∧
    (∀ i a ns l, BC.transfer_medicine s i a ns l = Except.error BC.notConnectedMsg) ∧
    (∀ i t, BC.update_temperature s i t = Except.error BC.notConnectedMsg) ∧
    (∀ i l, BC.update_location s i l = Except.error BC.notConnectedMsg) ∧
    (∀ i, BC.get_temperature_history s i = Except.error BC.notConnectedMsg) ∧
    (∀ i, BC.get_location_history s i = Except.error BC.notConnectedMsg) ∧
    (∀ i, BC.mark_as_expired s i = Except.error BC.notConnectedMsg) ∧
    (∀ i r, BC.recall_medicine s i r = Except.error BC.notConnectedMsg) ∧
    (∀ a, BC.get_user_role s a = Except.error BC.notConnectedMsg) := by
  refine ⟨?_, ?_, ?_, ?_, ?_, ?_, ?_, ?_, ?_, ?_, ?_, ?_⟩
  all_goals intros
  all_goals
    simp [BC.manufacture_medicine, BC.get_medicine, BC.get_all_medicines,
      BC.get_medicines_by_batch, BC.transfer_medicine, BC.update_temperature,
      BC.update_location, BC.get_temperature_history, BC.get_location_history,
      BC.mark_as_expired, BC.recall_medicine, BC.get_user_role, h]

/-- Witness for the amended claim C5, on the disconnected service. -/
theorem c5_operations_fail_fast_when_disconnected_witness :
    BC.is_connected svcDisconnected = false ∧
    BC.manufacture_medicine svcDisconnected "Aspirin" "ASP001" 100 25 false
      = Except.error BC.notConnectedMsg :=
  ⟨rfl, (c5_operations_fail_fast_when_disconnected svcDisconnected rfl).1
    "Aspirin" "ASP001" 100 25 false⟩

/-- Claim C6.  On a connected service with a signing account, once the
submitted creation transaction confirms with a receipt: if the receipt
carries no decoded `MedicineManufactured` event, the operation fails (the
index into the empty event tuple raises, the event-decode failure of the
claim); otherwise the new id is read off the first event and the
operation returns exactly the ledger fetch of the full record for that
id. -/
theorem c6_manufacture_extracts_event_id (s : BC.Service)
    (name bn : String) (e : Nat) (t : Int) (ts : Bool)
    (a : String) (rest : List String)
    (h1 : BC.is_connected s = true) (h2 : s.chain.accounts = a :: rest) :
    ∀ receipt, s.chain.sendAndWait (BC.manufactureTx s a name bn e t ts)
        = Except.ok receipt →
      (receipt.manufacturedEventIds = [] →
        BC.manufacture_medicine s name bn e t ts
          = Except.error "list index out of range") ∧
      (∀ mid l, receipt.manufacturedEventIds = mid :: l →
        BC.manufacture_medicine s name bn e t ts = BC.get_medicine s mid) := by
  intro receipt hr
  have hacct : BC.get_account s = Except.ok a := by
    simp [BC.get_account, h1, h2]
  constructor
  · intro hev
    simp [BC.manufacture_medicine, h1, hacct, exceptOk_bind, hr, hev]
  · intro mid l hev
    simp [BC.manufacture_medicine, h1, hacct, exceptOk_bind, hr, hev]

/-- Witness for claim C6, on a service whose receipts assign id 7. -/
theorem c6_manufacture_extracts_event_id_witness :
    BC.is_connected svcManu = true ∧
    svcManu.chain.accounts = Mock.addrManufacturer :: [] ∧
    BC.manufacture_medicine svcManu "Aspirin" "ASP001" 100 25 false
      = BC.get_medicine svcManu 7 :=
  ⟨rfl, rfl,
   (c6_manufacture_extracts_event_id svcManu "Aspirin" "ASP001" 100 25 false
      Mock.addrManufacturer [] rfl rfl
      { transactionHash := "0xabc", manufacturedEventIds := [7] } rfl).2 7 [] rfl⟩

/-- Claim C7.  For a medicine that exists for reads (an active first
id-match), a transfer succeeds and an immediately following `getMedicine`
on the same id returns a record whose current owner is the transfer
target and whose status is the requested one. -/
theorem c7_transfer_then_get_medicine (st : Mock.MockState) (now medicine_id : Nat)
    (tr : Mock.MedicineTransfer) (m : Mock.Medicine)
    (h1 : Mock.findById medicine_id st.medicines = some m)
    (h2 : m.isActive = true) :
    ((Mock.transfer_medicine st now medicine_id tr).1.toOption.map
        Mock.TransferResult.success = some true) ∧
    ((Mock.get_medicine (Mock.transfer_medicine st now medicine_id tr).2
        medicine_id).toOption.map (fun r => (r.currentOwner, r.status))
      = some (tr.toAddress, tr.newStatus)) := by
  have hfa : Mock.findByIdActive medicine_id
      (Mock.updateFirst (fun x => x.id == medicine_id)
        (Mock.transferUpdate tr medicine_id) st.medicines)
      = some (Mock.transferUpdate tr medicine_id m) :=
    findByIdActive_updateFirst medicine_id (Mock.transferUpdate tr medicine_id)
      (fun x => rfl) (fun x => rfl) st.medicines m h1 h2
  constructor
  · simp [Mock.transfer_medicine, Mock.transfer_medicine_body, h1,
      Except.mapError, Except.toOption]
  · simp [Mock.transfer_medicine, Mock.transfer_medicine_body, h1,
      Mock.get_medicine, hfa, Mock.withDisplayNames, Mock.transferUpdate,
      Except.mapError, Except.toOption]

/-- Witness for claim C7, transferring medicine 2 of the seeded state. -/
theorem c7_transfer_then_get_medicine_witness :
    (Mock.findById 2 mockInit.medicines = some (medW 2) ∧ (medW 2).isActive = true) ∧
    ((Mock.get_medicine (Mock.transfer_medicine mockInit T0 2 trShip).2 2).toOption.map
        (fun r => (r.currentOwner, r.status))
      = some (trShip.toAddress, trShip.newStatus)) :=
  ⟨⟨rfl, rfl⟩, (c7_transfer_then_get_medicine mockInit T0 2 trShip (medW 2) rfl rfl).2⟩

/-- Claim C8.  For every mock store state and every medicine id, the
temperature history and the location history each return a value sequence
and a timestamp sequence of the same length (both are projections of one
underlying entry list, so they are index-aligned). -/
theorem c8_history_lengths_aligned (st : Mock.MockState) (medicine_id : Nat) :
    ((Mock.get_temperature_history st medicine_id).toOption.map
        (fun r => r.temperatures.length == r.timestamps.length)) = some true ∧
    ((Mock.get_location_history st medicine_id).toOption.map
        (fun r => r.locations.length == r.timestamps.length)) = some true := by
  constructor <;>
    simp [Mock.get_temperature_history, Mock.get_location_history,
      Except.mapError, Except.toOption]

/-- Claim C9.  On the mock path, a temperature update aimed at an
existing medicine that is not temperature sensitive is rejected with an
HTTP 400 client error and leaves the whole state (hence the temperature
history) unchanged, while a location update needs no sensitivity: for any
existing medicine it succeeds and appends exactly one entry to the
location history of that id. -/
theorem c9_temperature_gate_location_unrestricted (st : Mock.MockState)
    (now medicine_id : Nat) (m : Mock.Medicine) (tu : Mock.TemperatureUpdate)
    (h1 : Mock.findById medicine_id st.medicines = some m)
    (h2 : m.temperatureSensitive = false) :
    Mock.update_temperature st now medicine_id tu
      = (Except.error
          { status := 400,
            detail := "Blockchain transaction failed: 400: Medicine is not temperature sensitive" },
         st) ∧
    (∀ st2 now2 id2 m2 lu, Mock.findById id2 st2.medicines = some m2 →
      ((Mock.update_location st2 now2 id2 lu).1.toOption.map
          Mock.SimpleResult.success = some true) ∧
      ((Mock.update_location st2 now2 id2 lu).2.locationData id2
        = st2.locationData id2 ++
            [{ location := lu.location, timestamp := now2,
               txHash := "0xloc" ++ hex40 id2 }])) := by
  constructor
  · have hb : Mock.update_temperature_body st now medicine_id tu
        = (Except.error { status := 400, detail := "Medicine is not temperature sensitive" },
           st) := by
      simp [Mock.update_temperature_body, h1, h2]
    calc Mock.update_temperature st now medicine_id tu
        = ((Mock.update_temperature_body st now medicine_id tu).1.mapError
            (Mock.wrapCaught 400 "Blockchain transaction failed: "),
           (Mock.update_temperature_body st now medicine_id tu).2) := rfl
      _ = _ := by rw [hb]; rfl
  · intro st2 now2 id2 m2 lu hfound
    constructor
    · simp [Mock.update_location, Mock.update_location_body, hfound,
        Except.mapError, Except.toOption]
    · simp [Mock.update_location, Mock.update_location_body, hfound]

/-- Witness for claim C9, at medicine 1 of the seeded state (existing,
not temperature sensitive). -/
theorem c9_temperature_gate_location_unrestricted_witness :
    (Mock.findById 1 mockInit.medicines = some (medW 1) ∧
      (medW 1).temperatureSensitive = false) ∧
    Mock.update_temperature mockInit T0 1 { temperature := "5°C" }
      = (Except.error
          { status := 400,
            detail := "Blockchain transaction failed: 400: Medicine is not temperature sensitive" },
         mockInit) :=
  ⟨⟨rfl, rfl⟩,
   (c9_temperature_gate_location_unrestricted mockInit T0 1 (medW 1)
      { temperature := "5°C" } rfl rfl).1⟩

/-- Claim C10, counterexample.  A store holding one inactive,
non-temperature-sensitive medicine: the claim asserts every listed write
on an inactive medicine succeeds, but the temperature update is rejected
with a 400 because of the sensitivity gate, independent of activity. -/
theorem c10_cex_inactive_temperature_write_rejected :
    (Mock.findById 1 stInactive.medicines).map
        (fun m => (m.isActive, m.temperatureSensitive)) = some (false, false) ∧
    (Mock.update_temperature stInactive 5 1 { temperature := "5°C" }).1
      = Except.error
          { status := 400,
            detail := "Blockchain transaction failed: 400: Medicine is not temperature sensitive" } :=
  ⟨rfl, rfl⟩

/-- Claim C10 as amended.  Reads select only active medicines while
writes locate by id alone: for a medicine whose id has no active match,
the single read rejects the request on its not-found branch and the list
reads exclude the id, while transfer, location update, expire and recall
all succeed and mutate it; the temperature update alone succeeds exactly
when the medicine is temperature sensitive. -/
theorem c10_reads_filter_active_writes_do_not (st : Mock.MockState)
    (now medicine_id : Nat) (m : Mock.Medicine) (tr : Mock.MedicineTransfer)
    (tu : Mock.TemperatureUpdate) (lu : Mock.LocationUpdate) (reason : String)
    (h1 : Mock.findById medicine_id st.medicines = some m)
    (h2 : m.isActive = false)
    (h3 : Mock.findByIdActive medicine_id st.medicines = none) :
    Mock.get_medicine st medicine_id
      = Except.error
          { status := 500,
            detail := "Blockchain query failed: 404: Medicine not found on blockchain" } ∧
    (∀ r ∈ (Mock.get_medicines st).toOption.getD [], r.id ≠ medicine_id) ∧
    (∀ b r, r ∈ ((Mock.get_medicines_by_batch st b).toOption.map
        Mock.BatchResponse.medicines).getD [] → r.id ≠ medicine_id) ∧
    ((Mock.transfer_medicine st now medicine_id tr).1.toOption.map
        Mock.TransferResult.success = some true) ∧
    ((Mock.findById medicine_id
        (Mock.transfer_medicine st now medicine_id tr).2.medicines).map
        (fun x => (x.currentOwner, x.status)) = some (tr.toAddress, tr.newStatus)) ∧
    ((Mock.update_location st now medicine_id lu).1.toOption.map
        Mock.SimpleResult.success = some true) ∧
    ((Mock.update_location st now medicine_id lu).2.locationData medicine_id
      = st.locationData medicine_id ++
          [{ location := lu.location, timestamp := now,
             txHash := "0xloc" ++ hex40 medicine_id }]) ∧
    ((Mock.mark_medicine_expired st medicine_id).1.toOption.map
        Mock.ExpireResult.success = some true) ∧
    ((Mock.findById medicine_id
        (Mock.mark_medicine_expired st medicine_id).2.medicines).map
        Mock.Medicine.status = some .EXPIRED) ∧
    ((Mock.recall_medicine st medicine_id reason).1.toOption.map
        Mock.RecallResult.success = some true) ∧
    ((Mock.findById medicine_id
        (Mock.recall_medicine st medicine_id reason).2.medicines).map
        Mock.Medicine.status = some .RECALLED) ∧
    ((Mock.update_temperature st now medicine_id tu).1.toOption.isSome
      = m.temperatureSensitive) := by
  have h3' : ∀ x ∈ st.medicines, ¬ ((x.id == medicine_id && x.isActive) = true) :=
    List.find?_eq_none.mp (by simpa [Mock.findByIdActive] using h3)
  refine ⟨?_, ?_, ?_, ?_, ?_, ?_, ?_, ?_, ?_, ?_, ?_, ?_⟩
  · simp only [Mock.get_medicine, h3]
    rfl
  · intro r hr
    have hr' : r ∈ st.medicines.filterMap
        (fun x => if x.isActive then some (Mock.withDisplayNames x) else none) := by
      simpa [Mock.get_medicines, Except.mapError, Except.toOption] using hr
    obtain ⟨a, ha, hfa⟩ := List.mem_filterMap.mp hr'
    by_cases hact : a.isActive
    · simp only [hact, if_true, Option.some.injEq] at hfa
      intro habs
      have hid : a.id = medicine_id := by
        have : r.id = a.id := by rw [← hfa]; simp [Mock.withDisplayNames]
        rw [← this, habs]
      exact h3' a ha (by simp [hid, hact])
    · simp [hact] at hfa
  · intro b r hr
    have hr' : r ∈ (st.medicines.filter
        (fun x => x.batchNumber == b && x.isActive)).map Mock.withDisplayNames := by
      simpa [Mock.get_medicines_by_batch, Except.mapError, Except.toOption] using hr
    obtain ⟨a, ha, hfa⟩ := List.mem_map.mp hr'
    obtain ⟨hmem, hpa⟩ := List.mem_filter.mp ha
    have hact : a.isActive = true := by
      have := hpa
      simp only [Bool.and_eq_true, beq_iff_eq] at this
      exact this.2
    intro habs
    have hid : a.id = medicine_id := by
      have : r.id = a.id := by rw [← hfa]; simp [Mock.withDisplayNames]
      rw [← this, habs]
    exact h3' a hmem (by simp [hid, hact])
  · simp [Mock.transfer_medicine, Mock.transfer_medicine_body, h1,
      Except.mapError, Except.toOption]
  · simp [Mock.transfer_medicine, Mock.transfer_medicine_body, h1,
      findById_updateFirst medicine_id (Mock.transferUpdate tr medicine_id)
        (fun x => rfl),
      Mock.transferUpdate]
  · simp [Mock.update_location, Mock.update_location_body, h1,
      Except.mapError, Except.toOption]
  · simp [Mock.update_location, Mock.update_location_body, h1]
  · simp [Mock.mark_medicine_expired, Mock.mark_medicine_expired_body, h1,
      Except.mapError, Except.toOption]
  · simp [Mock.mark_medicine_expired, Mock.mark_medicine_expired_body, h1,
      findById_updateFirst medicine_id (Mock.expireUpdate medicine_id)
        (fun x => rfl),
      Mock.expireUpdate]
  · simp [Mock.recall_medicine, Mock.recall_medicine_body, h1,
      Except.mapError, Except.toOption]
  · simp [Mock.recall_medicine, Mock.recall_medicine_body, h1,
      findById_updateFirst medicine_id (Mock.recallUpdate medicine_id)
        (fun x => rfl),
      Mock.recallUpdate]
  · cases hts : m.temperatureSensitive with
    | true =>
      simp [Mock.update_temperature, Mock.update_temperature_body, h1, hts,
        Except.mapError, Except.toOption]
    | false =>
      simp [Mock.update_temperature, Mock.update_temperature_body, h1, hts,
        Except.mapError, Except.toOption]

/-- Witness for the amended claim C10, on the one-inactive-medicine
store. -/
theorem c10_reads_filter_active_writes_do_not_witness :
    (Mock.findById 1 stInactive.medicines = some inactiveMed ∧
      inactiveMed.isActive = false ∧
      Mock.findByIdActive 1 stInactive.medicines = none) ∧
    Mock.get_medicine stInactive 1
      = Except.error
          { status := 500,
            detail := "Blockchain query failed: 404: Medicine not found on blockchain" } :=
  ⟨⟨rfl, rfl, rfl⟩,
   (c10_reads_filter_active_writes_do_not stInactive 5 1 inactiveMed trShip
      { temperature := "5°C" } { location := "Warehouse B" } "contamination"
      rfl rfl rfl).1⟩
